import Mathlib

/-!
Verification of the hold-and-notify engine demos of this repository:

* the long-polling job-status server
  (backend-communication-design-patterns/long-polling/long-polling.ts),
* the short-polling job server
  (backend-communication-design-patterns/short-polling/polling.ts),
* the server-sent-events broadcast server (the SSE demo file),
* the WebSocket push chat server
  (backend-communication-design-patterns/push/push-server.ts).

Each namespace below is a shallow embedding of one of these files: the
mutable module-level maps and arrays become explicit state records, each
HTTP handler or timer callback becomes a state-transition function, and
the responses sent over the wire are accumulated in a `responses` log so
that resolve-once properties can be stated.  Wall-clock values that only
decorate payloads (Date.now-based ids, timestamps) are elided; every
branch the source takes is translated.
-/

namespace LongPolling

/-- A generic association-list lookup mirroring a JS object or Map read
such as `jobs[jobId]`: returns the first binding for the key. -/
def lookupKey {α : Type} (k : String) : List (String × α) → Option α
  | [] => none
  | (a, v) :: rest => if a = k then some v else lookupKey k rest

/-- In-place update of the binding for a key, mirroring mutation of the
object stored at `jobs[jobId]` (the entry keeps its position). -/
def setKey {α : Type} (k : String) (v : α) : List (String × α) → List (String × α)
  | [] => []
  | (a, w) :: rest => if a = k then (a, v) :: rest else (a, w) :: setKey k v rest

/-- The `Job` record of long-polling.ts.  `lastUpdated` (a wall-clock
Date) is elided; `status` is one of the four status strings. -/
structure Job where
  id : String
  status : String
  progress : Nat
  result : Option String
deriving DecidableEq

/-- The `WaitingClient` record of long-polling.ts.  The held
`express.Response` is identified by `resId` and the pending `setTimeout`
handle by `timerId`; both are opaque identities in the source. -/
structure WaitingClient where
  resId : Nat
  jobId : String
  lastKnownStatus : String
  timerId : Nat
deriving DecidableEq

/-- The JSON bodies `res.json`-ed by the poll endpoint and its callbacks.
`notFound` is the 404 error body; `immediate` carries `immediate: true`;
`changed` carries `statusChanged: true`; `timeoutResp` carries
`timeout: true` plus a fixed message string. -/
inductive PollResponse
  | notFound
  | immediate (status : String) (progress : Nat) (result : Option String)
  | changed (status : String) (progress : Nat) (result : Option String)
  | timeoutResp (status : String) (progress : Nat)
deriving DecidableEq

/-- The module-level mutable state of long-polling.ts: the `jobs` map,
the `waitingClients` array, the set of armed (not yet cleared or fired)
timeout timers, and a log of every `res.json` call keyed by response
identity. -/
structure LPState where
  jobs : List (String × Job)
  waitingClients : List WaitingClient
  activeTimers : List Nat
  responses : List (Nat × PollResponse)
deriving DecidableEq

/-- `clearTimeout`: deactivates the given timer handle; a no-op when the
timer already fired or was already cleared. -/
def clearTimer (timerId : Nat) : List Nat → List Nat
  | [] => []
  | t :: rest => if t = timerId then rest else t :: clearTimer timerId rest

/-- `hasJobStatusChanged` from long-polling.ts: the caller-supplied last
status is non-empty and differs from the current job status. -/
def hasJobStatusChanged (job : Job) (lastKnownStatus : String) : Bool :=
  (lastKnownStatus != "") && (job.status != lastKnownStatus)

/-- The GET /poll-job-status handler.  `resId` is the identity of the
fresh response object and `timerId` the handle `setTimeout` would
return.  Branches in source order: missing or unknown job id gives 404;
a changed status answers immediately; otherwise a timeout timer is armed
and the client is pushed onto `waitingClients` with `lastKnownStatus`
reset to the current status. -/
def pollJobStatus (st : LPState) (resId timerId : Nat) (jobId lastKnownStatus : String) :
    LPState :=
  if jobId = "" then
    { st with responses := st.responses ++ [(resId, PollResponse.notFound)] }
  else
    match lookupKey jobId st.jobs with
    | none => { st with responses := st.responses ++ [(resId, PollResponse.notFound)] }
    | some currentJob =>
      if hasJobStatusChanged currentJob lastKnownStatus then
        { st with responses := st.responses ++
            [(resId, PollResponse.immediate currentJob.status currentJob.progress
                currentJob.result)] }
      else
        { st with
          activeTimers := timerId :: st.activeTimers
          waitingClients := st.waitingClients ++
            [{ resId := resId, jobId := jobId,
               lastKnownStatus := currentJob.status, timerId := timerId }] }

/-- The forEach body of `notifyWaitingClients`: for each drained client,
clear its timer and respond with the `statusChanged: true` body built
from the current job. -/
def notifyLoop (job : Job) (st : LPState) : List WaitingClient → LPState
  | [] => st
  | c :: rest =>
      notifyLoop job
        { st with
          activeTimers := clearTimer c.timerId st.activeTimers
          responses := st.responses ++
            [(c.resId, PollResponse.changed job.status job.progress job.result)] }
        rest

/-- The backwards splice loop of `notifyWaitingClients`, which removes
every waiting client whose `jobId` matches (removing all matches from
the end is the same as keeping all non-matches in order). -/
def spliceAllForJob (jobId : String) : List WaitingClient → List WaitingClient
  | [] => []
  | c :: rest =>
      if c.jobId = jobId then spliceAllForJob jobId rest
      else c :: spliceAllForJob jobId rest

/-- `notifyWaitingClients` from long-polling.ts: read the current job,
respond to every waiting client filtered by job id (clearing each
timer), then splice all of them out of the array.  The source never
calls this for a deleted job (jobs are never deleted in this file), so
the `none` branch is unreachable there. -/
def notifyWaitingClients (st : LPState) (jobId : String) : LPState :=
  match lookupKey jobId st.jobs with
  | none => st
  | some job =>
    let clientsForThisJob := st.waitingClients.filter (fun c => c.jobId == jobId)
    let st1 := notifyLoop job st clientsForThisJob
    { st1 with waitingClients := spliceAllForJob jobId st1.waitingClients }

/-- The search step of `removeWaitingClient`: scanning from the END of
the array, remove the first client whose `jobId` matches (that is, the
LAST matching element) and report it; `break` stops after one removal. -/
def removeLastAux (jobId : String) : List WaitingClient →
    List WaitingClient × Option WaitingClient
  | [] => ([], none)
  | c :: rest =>
    match removeLastAux jobId rest with
    | (rest1, some r) => (c :: rest1, some r)
    | (_, none) =>
      if c.jobId = jobId then (rest, some c) else (c :: rest, none)

/-- `removeWaitingClient` from long-polling.ts: keyed by job id only, it
clears the timer of, and splices out, the last waiting client for that
job id — not necessarily the client whose timeout invoked it. -/
def removeWaitingClientOp (st : LPState) (jobId : String) : LPState :=
  match removeLastAux jobId st.waitingClients with
  | (_, none) => st
  | (rest, some c) =>
    { st with waitingClients := rest, activeTimers := clearTimer c.timerId st.activeTimers }

/-- The timeout callback armed by the poll handler for waiting client
`w`, firing at its deadline.  It only runs if its timer is still active
(a cleared timer never fires); the fired timer is consumed, then the
source calls `removeWaitingClient(jobId)` and responds with the
`timeout: true` body read from the job captured at park time.  That
captured reference aliases the store entry (entries are mutated in
place and never deleted here), so it is read through the store; the
`none` branch is unreachable for a parked waiter. -/
def timeoutFire (st : LPState) (w : WaitingClient) : LPState :=
  if w.timerId ∈ st.activeTimers then
    let st0 := { st with activeTimers := clearTimer w.timerId st.activeTimers }
    match lookupKey w.jobId st0.jobs with
    | none => removeWaitingClientOp st0 w.jobId
    | some currentJob =>
      let st1 := removeWaitingClientOp st0 w.jobId
      { st1 with responses := st1.responses ++
          [(w.resId, PollResponse.timeoutResp currentJob.status currentJob.progress)] }
  else st

/-- One stage of `processJob`/`nextStage`: mutate the job record in
place (status, progress, and the result message when completed), then
notify all waiting clients for that job.  `processJob` returns early
when the job id is unknown. -/
def updateJobStage (st : LPState) (jobId newStatus : String) (newProgress : Nat) : LPState :=
  match lookupKey jobId st.jobs with
  | none => st
  | some job =>
    let job1 : Job :=
      { job with
        status := newStatus
        progress := newProgress
        result :=
          if newStatus = "completed" then
            some ("Job " ++ jobId ++ " completed successfully!")
          else job.result }
    notifyWaitingClients { st with jobs := setKey jobId job1 st.jobs } jobId

/-- The GET /poll-job-status handler registers no listener on the
request close event: this list of close-event callbacks is empty in
the source. -/
def pollCloseHandlerEffects : List (LPState → LPState) := []

/-- A client of the poll endpoint disconnecting runs exactly the close
handlers the handler registered — none — so the engine state is
untouched. -/
def clientDisconnect (st : LPState) : LPState :=
  pollCloseHandlerEffects.foldl (fun s f => f s) st

end LongPolling

namespace ShortPolling

/-- The `Job` record of short-polling polling.ts; `createdAt` is kept as
epoch milliseconds (the only use the source makes of it is the
millisecond difference in the cleanup task). -/
structure SPJob where
  id : String
  progress : Nat
  status : String
  createdAtMs : Int
deriving DecidableEq

/-- The JSON bodies of GET /check-status: 400 when the jobId parameter
is missing, 404 when the job does not exist, otherwise the current
progress, status and completion flag. -/
inductive CheckResponse
  | badRequest
  | notFound
  | okStatus (progress : Nat) (status : String) (isComplete : Bool)
deriving DecidableEq

/-- The GET /check-status handler of polling.ts: a pure read of the jobs
map — it creates nothing, parks nothing and retries nothing. -/
def checkStatus (jobs : List (String × SPJob)) (jobId : String) : CheckResponse :=
  if jobId = "" then CheckResponse.badRequest
  else
    match LongPolling.lookupKey jobId jobs with
    | none => CheckResponse.notFound
    | some job =>
        CheckResponse.okStatus job.progress job.status
          ((job.status == "completed") || (job.status == "failed"))

/-- The deletion condition of the cleanup setInterval in polling.ts: the
job is completed or failed and its age exceeds 10 minutes.  The source
compares `(now - createdAt) / (1000 * 60) > 10` in floating point;
dividing by the positive constant preserves order, so the condition is
exactly `now - createdAt > 600000` milliseconds. -/
def shouldCleanup (nowMs : Int) (job : SPJob) : Bool :=
  ((job.status == "completed") || (job.status == "failed")) &&
    (nowMs - job.createdAtMs > 600000)

/-- The body of the cleanup setInterval: `delete jobs[jobId]` for every
entry meeting the deletion condition. -/
def cleanupJobs (nowMs : Int) (jobs : List (String × SPJob)) : List (String × SPJob) :=
  jobs.filter (fun p => !(shouldCleanup nowMs p.2))

end ShortPolling

namespace SSE

/-- The `StockPrice` record of the SSE server.  The numeric fields are
JS doubles whose values are copied verbatim on the paths modelled here;
they are carried as exact rationals (every double value is rational).
The timestamp field is elided. -/
structure StockPrice where
  symbol : String
  price : Rat
  change : Rat
  changePercent : Rat
deriving DecidableEq

/-- The `JobProgress` record of the SSE server. -/
structure JobProgress where
  jobId : String
  progress : Nat
  status : String
  message : String
deriving DecidableEq

/-- The data payloads of the SSE events modelled here: the welcome
payload (message text plus assigned client id; timestamp elided) and
the verbatim stock and job records. -/
inductive EventPayload
  | connectionData (message : String) (clientId : String)
  | stockData (s : StockPrice)
  | jobData (j : JobProgress)
deriving DecidableEq

/-- A formatted SSE event as written by `sendSSEEvent`: the `event:`
type line and the `data:` payload.  The `id:` line embeds Date.now()
and is elided. -/
structure EventMsg where
  eventType : Option String
  payload : EventPayload
deriving DecidableEq

/-- Liveness of a stored client response sink as `broadcastToAllClients`
observes it: writable, already ended (`writableEnded`), or throwing on
write. -/
inductive SinkState
  | ok
  | ended
  | broken
deriving DecidableEq

/-- One entry of the `connectedClients` map: the generated client id,
the sink liveness, and the log of events written to that sink. -/
structure SSEClient where
  id : String
  sink : SinkState
  received : List EventMsg
deriving DecidableEq

/-- Map lookup by client id (first binding, as in a JS Map with unique
keys). -/
def findClient (cid : String) : List SSEClient → Option SSEClient
  | [] => none
  | c :: rest => if c.id = cid then some c else findClient cid rest

/-- The welcome event sent by GET /events immediately on connection. -/
def welcomeEvent (cid : String) : EventMsg :=
  { eventType := some "connection"
    payload := EventPayload.connectionData "Connected to SSE stream successfully!" cid }

/-- One `stock_price` event of `sendCurrentStockPrices`. -/
def stockEvent (s : StockPrice) : EventMsg :=
  { eventType := some "stock_price", payload := EventPayload.stockData s }

/-- One `job_progress` event of `sendCurrentJobs`. -/
def jobEvent (j : JobProgress) : EventMsg :=
  { eventType := some "job_progress", payload := EventPayload.jobData j }

/-- Writing a list of events to the sink of the client with the given
id (the snapshot helpers write to one specific response object). -/
def writeToClient (clients : List SSEClient) (cid : String) (evs : List EventMsg) :
    List SSEClient :=
  clients.map (fun c => if c.id = cid then { c with received := c.received ++ evs } else c)

/-- The module-level mutable state of the SSE server: the connected
clients map and the stock and job maps (iteration order is Map
insertion order). -/
structure ServerState where
  connectedClients : List SSEClient
  stockPrices : List (String × StockPrice)
  jobProgresses : List (String × JobProgress)
deriving DecidableEq

/-- The GET /events handler: write the welcome event to the fresh open
sink, store the client in `connectedClients`, then send the current
stock prices and the current jobs to that same sink.  The handler runs
synchronously, so no broadcast interleaves these steps.  The heartbeat
interval only writes a comment line and is elided. -/
def connectClient (st : ServerState) (cid : String) : ServerState :=
  let clients1 := st.connectedClients ++
    [{ id := cid, sink := SinkState.ok, received := [welcomeEvent cid] }]
  let clients2 := writeToClient clients1 cid (st.stockPrices.map (fun p => stockEvent p.2))
  let clients3 := writeToClient clients2 cid (st.jobProgresses.map (fun p => jobEvent p.2))
  { st with connectedClients := clients3 }

/-- The request close handler of GET /events:
`connectedClients.delete(clientId)`. -/
def sseOnClose (cid : String) (clients : List SSEClient) : List SSEClient :=
  clients.filter (fun c => !(c.id == cid))

/-- `broadcastToAllClients`: the forEach over the map delivers the event
to every writable sink; an ended sink is deleted, and a sink whose
write throws is deleted by the catch arm — in both cases iteration
continues with the remaining clients. -/
def broadcastToAllClients (ev : EventMsg) : List SSEClient → List SSEClient
  | [] => []
  | c :: rest =>
    match c.sink with
    | SinkState.ok =>
        { c with received := c.received ++ [ev] } :: broadcastToAllClients ev rest
    | SinkState.ended => broadcastToAllClients ev rest
    | SinkState.broken => broadcastToAllClients ev rest

end SSE

namespace Push

/-- A WebSocket connection of push-server.ts, identified by its remote
port (the name the server prints for the user) and carrying the
`connected` flag the broadcast loops test. -/
structure Conn where
  port : Nat
  connected : Bool
deriving DecidableEq

/-- The chat line pushed for a received message:
User(port) says: (message). -/
def formatChatMessage (senderPort : Nat) (message : String) : String :=
  "User" ++ toString senderPort ++ " says: " ++ message

/-- The join notification text. -/
def joinMessage (newPort : Nat) : String :=
  "User" ++ toString newPort ++ " has joined the chat"

/-- The message handler broadcast: every connection in the array that is
still connected receives the formatted message — the sender itself
included, since it is in the array and not excluded. -/
def chatBroadcast (connections : List Conn) (sender : Conn) (message : String) :
    List (Conn × String) :=
  connections.filterMap (fun conn =>
    if conn.connected = true then some (conn, formatChatMessage sender.port message)
    else none)

/-- The join broadcast run after a new connection is pushed onto the
array: every connected connection other than the new one receives the
join notification. -/
def joinBroadcast (connections : List Conn) (newConn : Conn) : List (Conn × String) :=
  connections.filterMap (fun conn =>
    if conn.connected = true ∧ conn ≠ newConn then some (conn, joinMessage newConn.port)
    else none)

/-- The close handler of push-server.ts: `indexOf` the closing
connection and `splice` it out — removal of the first occurrence. -/
def pushOnClose (conns : List Conn) (c : Conn) : List Conn :=
  match conns with
  | [] => []
  | a :: rest => if a = c then rest else a :: pushOnClose rest c

end Push

open LongPolling ShortPolling SSE Push

/-! Helper lemmas about the embedded operations, shared by the claim
theorems below. -/

theorem notifyLoop_spec (job : Job) (l : List WaitingClient) :
    ∀ st : LPState,
      (notifyLoop job st l).responses
        = st.responses ++ l.map
            (fun c => (c.resId, PollResponse.changed job.status job.progress job.result))
      ∧ (notifyLoop job st l).waitingClients = st.waitingClients
      ∧ (notifyLoop job st l).jobs = st.jobs := by
  induction l with
  | nil => intro st; simp [notifyLoop]
  | cons c rest ih =>
    intro st
    simpa [notifyLoop, List.append_assoc] using ih
      { st with
        activeTimers := clearTimer c.timerId st.activeTimers
        responses := st.responses ++
          [(c.resId, PollResponse.changed job.status job.progress job.result)] }

theorem spliceAllForJob_eq_filter (jobId : String) (l : List WaitingClient) :
    spliceAllForJob jobId l = l.filter (fun c => !(c.jobId == jobId)) := by
  induction l with
  | nil => rfl
  | cons c rest ih =>
    by_cases h : c.jobId = jobId <;> simp [spliceAllForJob, h, ih]

theorem removeOp_responses (st : LPState) (jobId : String) :
    (removeWaitingClientOp st jobId).responses = st.responses := by
  unfold removeWaitingClientOp
  rcases h : removeLastAux jobId st.waitingClients with ⟨rest, o⟩
  cases o <;> simp

theorem findClient_append_of_none {cid : String} :
    ∀ (l l2 : List SSEClient), findClient cid l = none →
      findClient cid (l ++ l2) = findClient cid l2 := by
  intro l l2
  induction l with
  | nil => intro; rfl
  | cons c rest ih =>
    intro h
    by_cases hc : c.id = cid
    · simp [findClient, hc] at h
    · simpa [findClient, hc] using ih (by simpa [findClient, hc] using h)

theorem findClient_writeToClient (cid : String) (evs : List EventMsg) :
    ∀ l : List SSEClient,
      findClient cid (writeToClient l cid evs)
        = Option.map (fun c => { c with received := c.received ++ evs })
            (findClient cid l) := by
  intro l
  induction l with
  | nil => rfl
  | cons c rest ih =>
    by_cases hc : c.id = cid
    · simp [findClient, writeToClient, hc]
    · simpa [findClient, writeToClient, hc] using ih

/-! Claim C1. -/

/-- A concrete run refuting claim C1 as stated: a job sits at status
processing with progress 10. -/
def c1st0 : LPState :=
  { jobs := [("j", { id := "j", status := "processing", progress := 10, result := none })],
    waitingClients := [], activeTimers := [], responses := [] }

/-- A client polls with lastStatus equal to the current status, so it is
parked with lastKnownStatus processing. -/
def c1st1 : LPState := pollJobStatus c1st0 0 100 "j" "processing"

/-- The next processing stage publishes progress 20 with the status
string unchanged. -/
def c1st2 : LPState := updateJobStage c1st1 "j" "processing" 20

/-- Claim C1 is false on the code: the waiter parked with
lastKnownStatus processing is resolved with the statusChanged response
by a publish after which the status is still processing — the state has
not advanced past what the waiter last saw, as the code's own
hasJobStatusChanged predicate confirms at resolution time. -/
theorem notify_resolves_waiter_without_status_change :
    c1st1.waitingClients
      = [{ resId := 0, jobId := "j", lastKnownStatus := "processing", timerId := 100 }]
    ∧ c1st2.responses = [(0, PollResponse.changed "processing" 20 none)]
    ∧ hasJobStatusChanged
        { id := "j", status := "processing", progress := 20, result := none }
        "processing" = false := by decide

/-- Claim C1 (amended): every publish for a key resolves ALL waiters
currently parked on that key with a statusChanged result, whether or not
the published status differs from the status each waiter last saw, and
removes exactly those waiters; the changed-since comparison is applied
only at park time. -/
theorem publish_resolves_every_parked_waiter
    (st : LPState) (jobId : String) (job : Job)
    (h : lookupKey jobId st.jobs = some job) :
    (notifyWaitingClients st jobId).responses
      = st.responses ++ (st.waitingClients.filter (fun c => c.jobId == jobId)).map
          (fun c => (c.resId, PollResponse.changed job.status job.progress job.result))
    ∧ (notifyWaitingClients st jobId).waitingClients
      = st.waitingClients.filter (fun c => !(c.jobId == jobId)) := by
  have hloop := notifyLoop_spec job
    (st.waitingClients.filter (fun c => c.jobId == jobId)) st
  constructor
  · simp only [notifyWaitingClients, h]
    exact hloop.1
  · simp only [notifyWaitingClients, h]
    rw [spliceAllForJob_eq_filter, hloop.2.1]

/-- A concrete state with one waiter parked on job j and one parked on
another job, exercising the amended claim C1 theorem. -/
def c1wSt : LPState :=
  { jobs := [("j", { id := "j", status := "processing", progress := 30, result := none }),
             ("k", { id := "k", status := "pending", progress := 0, result := none })],
    waitingClients :=
      [{ resId := 5, jobId := "j", lastKnownStatus := "processing", timerId := 50 },
       { resId := 6, jobId := "k", lastKnownStatus := "pending", timerId := 60 }],
    activeTimers := [60, 50], responses := [] }

/-- Witness for the amended claim C1 theorem at a concrete state. -/
theorem publish_resolves_every_parked_waiter_witness :
    lookupKey "j" c1wSt.jobs
      = some { id := "j", status := "processing", progress := 30, result := none }
    ∧ ((notifyWaitingClients c1wSt "j").responses
        = c1wSt.responses ++ (c1wSt.waitingClients.filter (fun c => c.jobId == "j")).map
            (fun c => (c.resId, PollResponse.changed "processing" 30 none))
       ∧ (notifyWaitingClients c1wSt "j").waitingClients
        = c1wSt.waitingClients.filter (fun c => !(c.jobId == "j"))) :=
  ⟨by decide,
   publish_resolves_every_parked_waiter c1wSt "j"
     { id := "j", status := "processing", progress := 30, result := none } (by decide)⟩

/-! Claim C2. -/

/-- Two clients park on the same job: client 0 first (timer 100), then
client 1 (timer 101), while the job sits at processing with
progress 10. -/
def c2st0 : LPState :=
  { jobs := [("j", { id := "j", status := "processing", progress := 10, result := none })],
    waitingClients := [], activeTimers := [], responses := [] }

/-- Client 0 parks. -/
def c2st1 : LPState := pollJobStatus c2st0 0 100 "j" "processing"

/-- Client 1 parks. -/
def c2st2 : LPState := pollJobStatus c2st1 1 101 "j" "processing"

/-- The waiting-list entry of client 0, whose deadline timer fires
first. -/
def c2wA : WaitingClient :=
  { resId := 0, jobId := "j", lastKnownStatus := "processing", timerId := 100 }

/-- The deadline of client 0 elapses: its timeout callback runs. -/
def c2st3 : LPState := timeoutFire c2st2 c2wA

/-- The job then completes, publishing a change. -/
def c2st4 : LPState := updateJobStage c2st3 "j" "completed" 100

/-- Claim C2 fails on this reachable run, because
removeWaitingClient(jobId) in the timeout handler removes the LAST
waiter for the job id rather than the waiter whose timer fired: client
0 is responded to twice (once by its timeout, once by the subsequent
publish, since its own entry was left in the list) while client 1 is
never responded to at all (its entry was spliced out and its timer
cleared by the other client's timeout handler). -/
theorem timeout_race_double_resolves_and_drops_waiter :
    c2st2.waitingClients
      = [c2wA, { resId := 1, jobId := "j", lastKnownStatus := "processing", timerId := 101 }]
    ∧ c2st4.responses
      = [(0, PollResponse.timeoutResp "processing" 10),
         (0, PollResponse.changed "completed" 100 (some "Job j completed successfully!"))]
    ∧ (c2st4.responses.filter (fun r => r.1 == 0)).length = 2
    ∧ (c2st4.responses.filter (fun r => r.1 == 1)).length = 0
    ∧ c2st4.waitingClients = []
    ∧ c2st4.activeTimers = [] := by decide

/-! Claim C3. -/

/-- Claim C3: a poll whose caller-supplied last-known status is already
stale at park time (nonempty and different from the current status, the
code's hasJobStatusChanged test) is answered immediately with the
current state and the immediate marker, and nothing is parked: the
waiting list, the armed timers and the job store are all untouched. -/
theorem stale_status_resolves_immediately
    (st : LPState) (resId timerId : Nat) (jobId lastStatus : String) (job : Job)
    (hne : jobId ≠ "") (h : lookupKey jobId st.jobs = some job)
    (hch : hasJobStatusChanged job lastStatus = true) :
    (pollJobStatus st resId timerId jobId lastStatus).responses
      = st.responses ++ [(resId, PollResponse.immediate job.status job.progress job.result)]
    ∧ (pollJobStatus st resId timerId jobId lastStatus).waitingClients = st.waitingClients
    ∧ (pollJobStatus st resId timerId jobId lastStatus).activeTimers = st.activeTimers
    ∧ (pollJobStatus st resId timerId jobId lastStatus).jobs = st.jobs := by
  simp [pollJobStatus, hne, h, hch]

/-- Witness for claim C3: polling with stale lastStatus pending while
the job is already processing. -/
theorem stale_status_resolves_immediately_witness :
    ("j" ≠ "")
    ∧ lookupKey "j" c1st0.jobs
        = some { id := "j", status := "processing", progress := 10, result := none }
    ∧ hasJobStatusChanged
        { id := "j", status := "processing", progress := 10, result := none } "pending" = true
    ∧ ((pollJobStatus c1st0 7 70 "j" "pending").responses
        = c1st0.responses ++ [(7, PollResponse.immediate "processing" 10 none)]
       ∧ (pollJobStatus c1st0 7 70 "j" "pending").waitingClients = c1st0.waitingClients
       ∧ (pollJobStatus c1st0 7 70 "j" "pending").activeTimers = c1st0.activeTimers
       ∧ (pollJobStatus c1st0 7 70 "j" "pending").jobs = c1st0.jobs) :=
  ⟨by decide, by decide, by decide,
   stale_status_resolves_immediately c1st0 7 70 "j" "pending"
     { id := "j", status := "processing", progress := 10, result := none }
     (by decide) (by decide) (by decide)⟩

/-! Claim C4. -/

/-- A completed short-polling job created at epoch millisecond 0. -/
def c4job : SPJob := { id := "job_1", progress := 100, status := "completed", createdAtMs := 0 }

/-- Claim C4 is false on the code: the short-polling cleanup interval
deletes a completed job once it is older than 10 minutes — here, at 600
001 ms, the stored entry is gone from the jobs map. -/
theorem cleanup_deletes_completed_job :
    lookupKey "job_1" [("job_1", c4job)] = some c4job
    ∧ lookupKey "job_1" (cleanupJobs 600001 [("job_1", c4job)]) = none := by decide

/-- Claim C4 (amended): job entries are deleted only by the
short-polling cleanup task, and it removes exactly those entries whose
status is completed or failed and whose age exceeds 10 minutes; every
other entry survives every cleanup pass unchanged. -/
theorem cleanup_removes_exactly_old_terminal_jobs
    (nowMs : Int) (jobs : List (String × SPJob)) (p : String × SPJob) :
    p ∈ cleanupJobs nowMs jobs ↔ p ∈ jobs ∧ shouldCleanup nowMs p.2 = false := by
  simp [cleanupJobs, List.mem_filter]

/-! Claim C5. -/

/-- A client parks on job k of a pending long-polling job. -/
def c5st : LPState :=
  pollJobStatus
    { jobs := [("k", { id := "k", status := "pending", progress := 0, result := none })],
      waitingClients := [], activeTimers := [], responses := [] }
    0 100 "k" "pending"

/-- Claim C5 is false on the code for the long-polling engine: the poll
handler registers no close listener, so when the parked client
disconnects, the disconnect event runs no engine code and the Waiter
stays registered (until its timer fires or a publish drains it). -/
theorem poll_disconnect_leaves_waiter_parked :
    c5st.waitingClients
      = [{ resId := 0, jobId := "k", lastKnownStatus := "pending", timerId := 100 }]
    ∧ (clientDisconnect c5st).waitingClients
      = [{ resId := 0, jobId := "k", lastKnownStatus := "pending", timerId := 100 }] := by
  decide

/-- Claim C5 (amended): a disconnecting streaming client is removed —
the SSE close handler deletes the client from connectedClients and the
push close handler splices the connection out of the array — but a
long-polling client disconnecting while parked is NOT released: the
poll handler installs no close handler, so the disconnect leaves the
engine state unchanged and its Waiter parked. -/
theorem disconnect_removes_streaming_subscriptions_only :
    (∀ (cid : String) (clients : List SSEClient),
        findClient cid (sseOnClose cid clients) = none)
    ∧ (∀ (conns : List Conn) (c : Conn), conns.Nodup → c ∉ pushOnClose conns c)
    ∧ (∀ st : LPState, clientDisconnect st = st) := by
  refine ⟨?_, ?_, fun _ => rfl⟩
  · intro cid clients
    induction clients with
    | nil => rfl
    | cons c rest ih =>
      by_cases hc : c.id = cid
      · simpa [sseOnClose, hc] using ih
      · simpa [sseOnClose, findClient, hc] using ih
  · intro conns c hnd
    induction conns with
    | nil => simp [pushOnClose]
    | cons a rest ih =>
      rw [List.nodup_cons] at hnd
      by_cases ha : a = c
      · subst ha
        simpa [pushOnClose] using hnd.1
      · simpa [pushOnClose, ha, Ne.symm ha] using ih hnd.2

/-- Witness for the amended claim C5 theorem at concrete inputs. -/
theorem disconnect_removes_streaming_subscriptions_only_witness :
    findClient "a"
      (sseOnClose "a" [{ id := "a", sink := SinkState.ok, received := [] }]) = none
    ∧ ([⟨1, true⟩, ⟨2, true⟩] : List Conn).Nodup
    ∧ (⟨1, true⟩ : Conn) ∉ pushOnClose [⟨1, true⟩, ⟨2, true⟩] ⟨1, true⟩
    ∧ clientDisconnect c5st = c5st :=
  ⟨disconnect_removes_streaming_subscriptions_only.1 "a" _,
   by decide,
   disconnect_removes_streaming_subscriptions_only.2.1 _ _ (by decide),
   disconnect_removes_streaming_subscriptions_only.2.2 c5st⟩

/-! Claim C6. -/

/-- Claim C6: one broadcast delivers the event to every client whose
sink is still writable, in iteration order, while every client whose
sink has ended or throws on write is removed from the map — a failing
subscriber neither blocks nor aborts delivery to the others, since the
result is exactly the map over the surviving clients regardless of how
many failed or where they sat in the list. -/
theorem broadcast_failure_isolated_per_subscriber (ev : EventMsg)
    (clients : List SSEClient) :
    broadcastToAllClients ev clients
      = (clients.filter (fun c => c.sink == SinkState.ok)).map
          (fun c => { c with received := c.received ++ [ev] }) := by
  induction clients with
  | nil => rfl
  | cons c rest ih =>
    rcases c with ⟨id, sink, received⟩
    cases sink <;> simp [broadcastToAllClients, ih]

/-! Claim C7. -/

/-- Claim C7: when the deadline timer of a parked waiter fires (its
timer still armed, so it was neither resolved by a publish nor
cancelled), the engine responds to that waiter with the timeout body
carrying the job's current status and progress — a first-class
resolution distinct from the not-found error outcome. -/
theorem deadline_fires_timeout_with_last_state
    (st : LPState) (w : WaitingClient) (job : Job)
    (hactive : w.timerId ∈ st.activeTimers)
    (h : lookupKey w.jobId st.jobs = some job) :
    (timeoutFire st w).responses
      = st.responses ++ [(w.resId, PollResponse.timeoutResp job.status job.progress)]
    ∧ PollResponse.timeoutResp job.status job.progress ≠ PollResponse.notFound := by
  refine ⟨?_, by simp⟩
  simp [timeoutFire, hactive, h, removeOp_responses]

/-- Witness for claim C7: the parked client of the C5 state times out
and receives the pending state with the timeout marker. -/
theorem deadline_fires_timeout_with_last_state_witness :
    (100 ∈ c5st.activeTimers)
    ∧ lookupKey "k" c5st.jobs
        = some { id := "k", status := "pending", progress := 0, result := none }
    ∧ ((timeoutFire c5st
          { resId := 0, jobId := "k", lastKnownStatus := "pending", timerId := 100 }).responses
        = c5st.responses ++ [(0, PollResponse.timeoutResp "pending" 0)]
       ∧ PollResponse.timeoutResp "pending" 0 ≠ PollResponse.notFound) :=
  ⟨by decide, by decide,
   deadline_fires_timeout_with_last_state c5st
     { resId := 0, jobId := "k", lastKnownStatus := "pending", timerId := 100 }
     { id := "k", status := "pending", progress := 0, result := none }
     (by decide) (by decide)⟩

/-! Claim C8. -/

/-- Claim C8: a poll or status check naming a job id with no entry in
the store is answered with the not-found error body, and the engine
mutates nothing — the store, the waiting list and the timers are
unchanged, so nothing is created, retried or parked (the short-polling
check handler is a pure function of the store by its very type). -/
theorem unknown_key_not_found_no_mutation :
    (∀ (st : LPState) (resId timerId : Nat) (jobId lastStatus : String),
        jobId ≠ "" → lookupKey jobId st.jobs = none →
        (pollJobStatus st resId timerId jobId lastStatus).responses
          = st.responses ++ [(resId, PollResponse.notFound)]
        ∧ (pollJobStatus st resId timerId jobId lastStatus).jobs = st.jobs
        ∧ (pollJobStatus st resId timerId jobId lastStatus).waitingClients
          = st.waitingClients
        ∧ (pollJobStatus st resId timerId jobId lastStatus).activeTimers
          = st.activeTimers)
    ∧ (∀ (jobs : List (String × SPJob)) (jobId : String),
        jobId ≠ "" → lookupKey jobId jobs = none →
        checkStatus jobs jobId = CheckResponse.notFound) := by
  constructor
  · intro st resId timerId jobId lastStatus hne h
    simp [pollJobStatus, hne, h]
  · intro jobs jobId hne h
    simp [checkStatus, hne, h]

/-- Witness for claim C8 at a concrete unknown job id in both
engines. -/
theorem unknown_key_not_found_no_mutation_witness :
    ("ghost" ≠ "")
    ∧ lookupKey "ghost" c1st0.jobs = none
    ∧ ((pollJobStatus c1st0 9 90 "ghost" "").responses
        = c1st0.responses ++ [(9, PollResponse.notFound)]
       ∧ (pollJobStatus c1st0 9 90 "ghost" "").jobs = c1st0.jobs
       ∧ (pollJobStatus c1st0 9 90 "ghost" "").waitingClients = c1st0.waitingClients
       ∧ (pollJobStatus c1st0 9 90 "ghost" "").activeTimers = c1st0.activeTimers)
    ∧ lookupKey "ghost" [("job_1", c4job)] = none
    ∧ checkStatus [("job_1", c4job)] "ghost" = CheckResponse.notFound :=
  ⟨by decide, by decide,
   unknown_key_not_found_no_mutation.1 c1st0 9 90 "ghost" "" (by decide) (by decide),
   by decide,
   unknown_key_not_found_no_mutation.2 [("job_1", c4job)] "ghost" (by decide) (by decide)⟩

/-! Claim C9. -/

/-- Claim C9: a freshly generated client id connecting to the SSE stream
receives, on its own sink and before anything else can be broadcast to
it, exactly the welcome connection event carrying its client id,
followed by one stock_price event per currently stored stock and one
job_progress event per currently stored job, in storage order — so a
late subscriber still observes the current state snapshot. -/
theorem sse_connect_welcome_then_snapshot
    (st : ServerState) (cid : String)
    (h : findClient cid st.connectedClients = none) :
    findClient cid (connectClient st cid).connectedClients
      = some { id := cid, sink := SinkState.ok,
               received := [welcomeEvent cid]
                 ++ st.stockPrices.map (fun p => stockEvent p.2)
                 ++ st.jobProgresses.map (fun p => jobEvent p.2) }
    ∧ (welcomeEvent cid).eventType = some "connection"
    ∧ (welcomeEvent cid).payload
        = EventPayload.connectionData "Connected to SSE stream successfully!" cid
    ∧ (∀ s, (stockEvent s).eventType = some "stock_price")
    ∧ (∀ j, (jobEvent j).eventType = some "job_progress") := by
  refine ⟨?_, rfl, rfl, fun _ => rfl, fun _ => rfl⟩
  simp only [connectClient]
  rw [findClient_writeToClient, findClient_writeToClient,
    findClient_append_of_none _ _ h]
  simp [findClient, List.append_assoc]

/-- A concrete SSE server state holding one stock and one job and no
connected client. -/
def c9st : ServerState :=
  { connectedClients := [],
    stockPrices := [("AAPL", { symbol := "AAPL", price := 100, change := 0,
                               changePercent := 0 })],
    jobProgresses := [("job1", { jobId := "job1", progress := 0, status := "running",
                                 message := "Job started..." })] }

/-- Witness for claim C9 at the concrete state. -/
theorem sse_connect_welcome_then_snapshot_witness :
    findClient "c1" c9st.connectedClients = none
    ∧ (findClient "c1" (connectClient c9st "c1").connectedClients
        = some { id := "c1", sink := SinkState.ok,
                 received := [welcomeEvent "c1"]
                   ++ c9st.stockPrices.map (fun p => stockEvent p.2)
                   ++ c9st.jobProgresses.map (fun p => jobEvent p.2) }
       ∧ (welcomeEvent "c1").eventType = some "connection"
       ∧ (welcomeEvent "c1").payload
          = EventPayload.connectionData "Connected to SSE stream successfully!" "c1"
       ∧ (∀ s, (stockEvent s).eventType = some "stock_price")
       ∧ (∀ j, (jobEvent j).eventType = some "job_progress")) :=
  ⟨by decide, sse_connect_welcome_then_snapshot c9st "c1" (by decide)⟩

/-! Claim C10. -/

/-- Claim C10: the chat broadcast for a received message reaches every
connection in the array that is still connected — the sender included,
since the handler iterates the whole array without excluding the
sending connection — while the join notification reaches every
connected connection EXCEPT the newly joined one, which the join loop
explicitly skips. -/
theorem chat_broadcast_includes_sender_join_excludes_newcomer :
    (∀ (conns : List Conn) (sender target : Conn) (msg : String),
        target ∈ conns → target.connected = true →
        (target, formatChatMessage sender.port msg) ∈ chatBroadcast conns sender msg)
    ∧ (∀ (conns : List Conn) (newConn : Conn) (r : Conn × String),
        r ∈ joinBroadcast conns newConn → r.1 ≠ newConn)
    ∧ (∀ (conns : List Conn) (newConn target : Conn),
        target ∈ conns → target.connected = true → target ≠ newConn →
        (target, joinMessage newConn.port) ∈ joinBroadcast conns newConn) := by
  refine ⟨?_, ?_, ?_⟩
  · intro conns sender target msg hmem hconn
    exact List.mem_filterMap.mpr ⟨target, hmem, by simp [hconn]⟩
  · intro conns newConn r hr
    obtain ⟨a, _, hfa⟩ := List.mem_filterMap.mp hr
    by_cases hcond : a.connected = true ∧ a ≠ newConn
    · rw [if_pos hcond] at hfa
      obtain ⟨rfl⟩ : a = r.1 := by cases hfa; rfl
      exact hcond.2
    · rw [if_neg hcond] at hfa
      cases hfa
  · intro conns newConn target hmem hconn hne
    exact List.mem_filterMap.mpr ⟨target, hmem, by simp [hconn, hne]⟩

/-- Witness for claim C10: with two connected users on ports 1 and 2,
the message from user 1 is pushed back to user 1 itself, and the join
notification for the newly joined user 2 is delivered to user 1 while
no delivery of it targets user 2. -/
theorem chat_broadcast_includes_sender_join_excludes_newcomer_witness :
    ((⟨1, true⟩ : Conn) ∈ ([⟨1, true⟩, ⟨2, true⟩] : List Conn))
    ∧ (⟨1, true⟩ : Conn).connected = true
    ∧ ((⟨1, true⟩ : Conn), formatChatMessage 1 "hi")
        ∈ chatBroadcast [⟨1, true⟩, ⟨2, true⟩] ⟨1, true⟩ "hi"
    ∧ ((⟨1, true⟩ : Conn), joinMessage 2)
        ∈ joinBroadcast [⟨1, true⟩, ⟨2, true⟩] ⟨2, true⟩
    ∧ (∀ r ∈ joinBroadcast ([⟨1, true⟩, ⟨2, true⟩] : List Conn) ⟨2, true⟩,
        r.1 ≠ (⟨2, true⟩ : Conn)) :=
  ⟨by decide, by decide,
   chat_broadcast_includes_sender_join_excludes_newcomer.1
     [⟨1, true⟩, ⟨2, true⟩] ⟨1, true⟩ ⟨1, true⟩ "hi" (by decide) (by decide),
   chat_broadcast_includes_sender_join_excludes_newcomer.2.2
     [⟨1, true⟩, ⟨2, true⟩] ⟨2, true⟩ ⟨1, true⟩ (by decide) (by decide) (by decide),
   fun r hr =>
     chat_broadcast_includes_sender_join_excludes_newcomer.2.1
       [⟨1, true⟩, ⟨2, true⟩] ⟨2, true⟩ r hr⟩
